import Mathlib

/-!
Verification development for the UNIQ retail dashboards
(src/main.py: inventory dashboard, src/sales-report.py: sales dashboard).

The Python code is shallowly embedded: JSON cell values become an inductive
`Cell` type, records become association lists, pandas DataFrames become lists
of records, and the float arithmetic used by the growth-rate computation is
modelled exactly by rationals extended with NaN and signed infinities.
-/

set_option autoImplicit false
set_option linter.unnecessarySeqFocus false

/-! ## Python substring containment (the `needle in hay` test on strings) -/

/-- Character-list prefix test, building block for substring containment. -/
def startsWithCh : List Char → List Char → Bool
  | [], _ => true
  | _ :: _, [] => false
  | a :: as, b :: bs => a = b && startsWithCh as bs

/-- Substring containment on character lists: does the haystack contain the
needle as a contiguous run? -/
def hasSubCh (needle : List Char) : List Char → Bool
  | [] => startsWithCh needle []
  | b :: bs => startsWithCh needle (b :: bs) || hasSubCh needle bs

/-- Python `needle in hay` on strings (substring containment). -/
def pyIn (needle hay : String) : Bool :=
  hasSubCh needle.data hay.data

/-! ## `categorize_product` (src/sales-report.py lines 90-117)

The item name handed to `categorize_product` is an arbitrary cell of the
`item_name` column; the code first tests `isinstance(name, str)`, so the
input is modelled as either a string or a non-string value. -/

/-- A value of the sales table's item_name column: a Python string, or any
non-string value (all non-strings take the same branch of the code). -/
inductive ItemName where
  | pyStr (s : String)
  | nonStr
deriving DecidableEq

/-- Embedding of `categorize_product` from src/sales-report.py: a chain of
substring tests against the item name, first match wins. -/
def categorize_product : ItemName → String
  | .nonStr => "Unknown"
  | .pyStr name =>
    if pyIn "Kimono" name then "Kimono Jacket"
    else if pyIn "Gilet" name then "Gilet Jacket"
    else if pyIn "TP Jacket" name || pyIn "Trucker Jacket" name then "TP/Trucker Jacket"
    else if pyIn "Tote" name then "Tote Bag"
    else if pyIn "Hat" name then "Campaign Hats"
    else if pyIn "Shorts" name then "Shorts"
    else if pyIn "Jeans" name then "Jeans"
    else if pyIn "Skirt" name then "Skirt"
    else if pyIn "Bottle" name then "Bottle Sling"
    else if pyIn "DRESS" name then "Dress"
    else "Other"

/-- Spec-side rule table: the ordered substring-containment rule list of the
specification (each rule: a list of trigger substrings and the label). -/
def categoryRules : List (List String × String) :=
  [(["Kimono"], "Kimono Jacket"),
   (["Gilet"], "Gilet Jacket"),
   (["TP Jacket", "Trucker Jacket"], "TP/Trucker Jacket"),
   (["Tote"], "Tote Bag"),
   (["Hat"], "Campaign Hats"),
   (["Shorts"], "Shorts"),
   (["Jeans"], "Jeans"),
   (["Skirt"], "Skirt"),
   (["Bottle"], "Bottle Sling"),
   (["DRESS"], "Dress")]

/-- Spec-side classifier: scan the rule table top to bottom, return the label
of the first rule one of whose trigger substrings occurs in the name, and
"Other" when no rule matches. -/
def firstRuleLabel (name : String) : String :=
  match categoryRules.find? (fun r => r.1.any (fun n => pyIn n name)) with
  | some r => r.2
  | none => "Other"

/-- The twelve strings `categorize_product` can return. -/
def categoryLabels : List String :=
  ["Kimono Jacket", "Gilet Jacket", "TP/Trucker Jacket", "Tote Bag",
   "Campaign Hats", "Shorts", "Jeans", "Skirt", "Bottle Sling", "Dress",
   "Other", "Unknown"]

theorem categorize_eq_firstRule (s : String) :
    categorize_product (.pyStr s) = firstRuleLabel s := by
  simp only [categorize_product, firstRuleLabel, categoryRules, List.find?,
    List.any_cons, List.any_nil, Bool.or_false]
  by_cases h1 : pyIn "Kimono" s = true <;>
    by_cases h2 : pyIn "Gilet" s = true <;>
      by_cases h3 : (pyIn "TP Jacket" s || pyIn "Trucker Jacket" s) = true <;>
        simp [h1, h2, h3] <;>
  by_cases h4 : pyIn "Tote" s = true <;>
    by_cases h5 : pyIn "Hat" s = true <;>
      by_cases h6 : pyIn "Shorts" s = true <;>
        simp [h4, h5, h6] <;>
  by_cases h7 : pyIn "Jeans" s = true <;>
    by_cases h8 : pyIn "Skirt" s = true <;>
      by_cases h9 : pyIn "Bottle" s = true <;>
        by_cases h10 : pyIn "DRESS" s = true <;>
          simp [h7, h8, h9, h10]

/-- C1: product-category classification is a pure function of the item name:
`categorize_product` scans the fixed rule list in the spec's exact order and
returns the first matching label (so "Kimono Gilet Jacket" maps to
"Kimono Jacket"), returns "Other" when no rule matches, and returns
"Unknown" for every non-string input. -/
theorem categorize_product_ordered_rules (s : String) :
    categorize_product (.pyStr s) = firstRuleLabel s ∧
    categorize_product (.pyStr "Kimono Gilet Jacket") = "Kimono Jacket" ∧
    categorize_product .nonStr = "Unknown" ∧
    ((∀ r ∈ categoryRules, ∀ n ∈ r.1, pyIn n s = false) →
      categorize_product (.pyStr s) = "Other") := by
  refine ⟨categorize_eq_firstRule s, by decide, rfl, ?_⟩
  intro h
  rw [categorize_eq_firstRule s]
  have hnone : categoryRules.find? (fun r => r.1.any (fun n => pyIn n s)) = none := by
    rw [List.find?_eq_none]
    intro r hr
    simp only [List.any_eq_true, not_exists, not_and]
    intro n hn
    simp [h r hr n hn]
  simp [firstRuleLabel, hnone]

/-- Witness for C1: the theorem applied at a concrete name matching no rule. -/
theorem categorize_product_ordered_rules_witness :
    categorize_product (.pyStr "Plain Tee") = "Other" :=
  (categorize_product_ordered_rules "Plain Tee").2.2.2 (by decide)

/-- C10: for every input, `categorize_product` returns one of exactly twelve
fixed strings, so the derived product_category column always lies in this
closed set of valid group keys. -/
theorem categorize_product_range (x : ItemName) :
    categorize_product x ∈ categoryLabels := by
  cases x with
  | nonStr => simp [categorize_product, categoryLabels]
  | pyStr s =>
    simp only [categorize_product]
    split_ifs <;> simp [categoryLabels]

/-! ## Inventory data model (src/main.py)

A JSON cell value is null, a string, or a number (rationals model JSON
numbers; integers are kept apart so that the result of the integer cast on
the count column is visible in the type). A record (one item dictionary) is
an association list from field names to cells, and a DataFrame is a list of
records whose column set is the union of the records' keys; a record lacking
a key holds null (NaN) in that column. -/

/-- A JSON/DataFrame cell value. -/
inductive Cell where
  | null
  | str (s : String)
  | num (q : ℚ)
  | int (n : Int)
deriving DecidableEq

/-- One item record: an ordered dictionary from field names to values. -/
abbrev Record := List (String × Cell)

/-- Reading a column of a record: the first entry for the key, null (NaN)
when the record has no such key. -/
def getCell (r : Record) (c : String) : Cell :=
  match r.find? (fun p => p.1 = c) with
  | some p => p.2
  | none => .null

/-- Dictionary/column assignment: the new entry shadows any earlier entry
for the same key. -/
def setKey (r : Record) (c : String) (v : Cell) : Record :=
  (c, v) :: r

/-- Does the record carry the key? -/
def hasKey (r : Record) (c : String) : Bool :=
  r.any (fun p => p.1 = c)

/-- Does the DataFrame built from these records have the column, i.e. does
some record carry the key? -/
def hasCol (t : List Record) (c : String) : Bool :=
  t.any (fun r => hasKey r c)

/-! ## Numeric coercion of the count column (src/main.py line 103)

`pd.to_numeric(df["count"], errors="coerce")` parses strings as decimal
numbers and turns unparsable values into NaN; `.fillna(0)` replaces NaN by
zero; `.astype(int)` truncates toward zero. The string grammar modelled is
an optional sign, digits, and an optional fractional part, after stripping
surrounding whitespace. -/

/-- Python str.strip on a character list: drop whitespace from both ends. -/
def stripCh (l : List Char) : List Char :=
  ((l.dropWhile Char.isWhitespace).reverse.dropWhile Char.isWhitespace).reverse

/-- Python str.strip on strings. -/
def pyStrip (s : String) : String :=
  String.mk (stripCh s.data)

/-- Value of a nonempty all-digit character run, none otherwise. -/
def parseDigits (l : List Char) : Option Nat :=
  if l.isEmpty then none
  else if l.all Char.isDigit then
    some (l.foldl (fun a c => a * 10 + (c.toNat - 48)) 0)
  else none

/-- Unsigned decimal literal: digits with an optional single point. -/
def parseUnsignedQ (l : List Char) : Option ℚ :=
  match l.splitOn '.' with
  | [w] => (parseDigits w).map (fun n => (n : ℚ))
  | [w, f] =>
    match parseDigits w, parseDigits f with
    | some n, some m => some ((n : ℚ) + (m : ℚ) / (10 : ℚ) ^ f.length)
    | _, _ => none
  | _ => none

/-- Signed decimal literal. -/
def parseSignedQ : List Char → Option ℚ
  | '-' :: rest => (parseUnsignedQ rest).map Neg.neg
  | '+' :: rest => parseUnsignedQ rest
  | l => parseUnsignedQ l

/-- Numeric parse of a string cell, whitespace-stripped. -/
def parseNumQ (s : String) : Option ℚ :=
  parseSignedQ (stripCh s.data)

/-- Embedding of `pd.to_numeric(value, errors="coerce")` on one cell: `none`
models NaN. -/
def toNumeric : Cell → Option ℚ
  | .null => none
  | .str s => parseNumQ s
  | .num q => some q
  | .int n => some (n : ℚ)

/-- Integer cast of a rational, truncating toward zero (`astype(int)`). -/
def truncToInt (q : ℚ) : Int :=
  if 0 ≤ q then q.floor else q.ceil

/-- The full per-cell count coercion of src/main.py line 103:
to_numeric with coercion, fill NaN with 0, cast to integer. -/
def coerceCount (v : Cell) : Int :=
  truncToInt ((toNumeric v).getD 0)

/-! ## `process_store_data` (src/main.py lines 81-105) -/

/-- The raw inventory payload: store name to list of item records, in
source order. -/
abbrev InvPayload := List (String × List Record)

/-- Lines 82-90: flatten the payload, tagging each item with its
whitespace-stripped store name. -/
def allItems (payload : InvPayload) : List Record :=
  payload.flatMap (fun sp => sp.2.map (fun item => setKey item "store_name" (.str (pyStrip sp.1))))

/-- The optional categorical columns defaulted at lines 93-100. -/
def catColumns : List String := ["category", "collection", "gender", "size"]

/-- One default step: when the column is absent from every record, assign
the whole column the literal "Unknown". -/
def addDefault (t : List Record) (c : String) : List Record :=
  if hasCol t c then t
  else t.map (fun r => setKey r c (.str "Unknown"))

/-- Lines 93-100 in source order. -/
def withDefaults (t : List Record) : List Record :=
  addDefault (addDefault (addDefault (addDefault t "category") "collection") "gender") "size"

/-- Line 103. Reading `df["count"]` raises KeyError when no record carries
the key (the column does not exist), modelled by `none`; otherwise every
row's count becomes the coerced integer. -/
def coerceCountCol (t : List Record) : Option (List Record) :=
  if hasCol t "count" then
    some (t.map (fun r => setKey r "count" (.int (coerceCount (getCell r "count")))))
  else none

/-- Embedding of `process_store_data`: flatten, default the categorical
columns, coerce the count column. -/
def process_store_data (payload : InvPayload) : Option (List Record) :=
  coerceCountCol (withDefaults (allItems payload))

/-! ## Record and pipeline lemmas -/

theorem getCell_setKey_same (r : Record) (k : String) (v : Cell) :
    getCell (setKey r k v) k = v := by
  simp [getCell, setKey, List.find?]

theorem getCell_setKey_ne (r : Record) (k : String) (v : Cell) (c : String)
    (hne : c ≠ k) : getCell (setKey r k v) c = getCell r c := by
  simp [getCell, setKey, List.find?, Ne.symm hne]

theorem getCell_eq_null_of_not_hasKey (r : Record) (c : String)
    (h : hasKey r c = false) : getCell r c = .null := by
  unfold getCell
  have hnone : r.find? (fun p => p.1 = c) = none := by
    rw [List.find?_eq_none]
    intro p hp
    have := (List.any_eq_false.mp h) p hp
    simpa using this
  rw [hnone]

theorem getD_map_record (f : Record → Record) (t : List Record) (i : Nat)
    (h : i < t.length) : (t.map f).getD i [] = f (t.getD i []) := by
  have h' : i < (t.map f).length := by simpa using h
  rw [List.getD_eq_getElem _ _ h', List.getD_eq_getElem _ _ h, List.getElem_map]

theorem hasCol_map_setKey (t : List Record) (c k : String) (f : Record → Cell)
    (hne : c ≠ k) :
    hasCol (t.map (fun r => setKey r k (f r))) c = hasCol t c := by
  unfold hasCol
  rw [List.any_map]
  congr 1
  funext r
  simp [hasKey, setKey, List.any_cons, Function.comp, Ne.symm hne]

theorem length_addDefault (t : List Record) (c : String) :
    (addDefault t c).length = t.length := by
  unfold addDefault
  split <;> simp

theorem hasCol_addDefault (t : List Record) (c c' : String) (hne : c ≠ c') :
    hasCol (addDefault t c') c = hasCol t c := by
  unfold addDefault
  split
  · rfl
  · exact hasCol_map_setKey t c c' _ hne

theorem getD_addDefault_ne (t : List Record) (c c' : String) (hne : c ≠ c')
    (i : Nat) (h : i < t.length) :
    getCell ((addDefault t c').getD i []) c = getCell (t.getD i []) c := by
  unfold addDefault
  split
  · rfl
  · rw [getD_map_record _ t i h, getCell_setKey_ne _ _ _ _ hne]

theorem getD_addDefault_self (t : List Record) (c : String) (i : Nat)
    (h : i < t.length) :
    getCell ((addDefault t c).getD i []) c =
      if hasCol t c then getCell (t.getD i []) c else Cell.str "Unknown" := by
  unfold addDefault
  split
  · rfl
  · rw [getD_map_record _ t i h, getCell_setKey_same]

theorem length_withDefaults (t : List Record) :
    (withDefaults t).length = t.length := by
  unfold withDefaults
  rw [length_addDefault, length_addDefault, length_addDefault, length_addDefault]

theorem hasCol_withDefaults_count (t : List Record) :
    hasCol (withDefaults t) "count" = hasCol t "count" := by
  unfold withDefaults
  rw [hasCol_addDefault _ _ _ (by decide), hasCol_addDefault _ _ _ (by decide),
    hasCol_addDefault _ _ _ (by decide), hasCol_addDefault _ _ _ (by decide)]

theorem getD_withDefaults_count (t : List Record) (i : Nat) (h : i < t.length) :
    getCell ((withDefaults t).getD i []) "count" = getCell (t.getD i []) "count" := by
  unfold withDefaults
  rw [getD_addDefault_ne _ _ _ (by decide) i
        (by rw [length_addDefault, length_addDefault, length_addDefault]; exact h),
      getD_addDefault_ne _ _ _ (by decide) i
        (by rw [length_addDefault, length_addDefault]; exact h),
      getD_addDefault_ne _ _ _ (by decide) i (by rw [length_addDefault]; exact h),
      getD_addDefault_ne _ _ _ (by decide) i h]

theorem process_store_data_eq_some (payload : InvPayload) (rows : List Record)
    (hp : process_store_data payload = some rows) :
    hasCol (withDefaults (allItems payload)) "count" = true ∧
    rows = (withDefaults (allItems payload)).map
      (fun r => setKey r "count" (.int (coerceCount (getCell r "count")))) := by
  unfold process_store_data coerceCountCol at hp
  by_cases h : hasCol (withDefaults (allItems payload)) "count" = true
  · rw [if_pos h] at hp
    exact ⟨h, (Option.some.injEq _ _ ▸ hp.symm : _)⟩
  · rw [if_neg h] at hp
    exact absurd hp (by simp)

theorem addDefault_of_hasCol (t : List Record) (c : String)
    (h : hasCol t c = true) : addDefault t c = t := by
  unfold addDefault
  rw [if_pos h]

theorem addDefault_mem_unknown_keep (t : List Record) (c c' : String) (hne : c ≠ c')
    (hall : ∀ r ∈ t, getCell r c = Cell.str "Unknown") :
    ∀ r ∈ addDefault t c', getCell r c = Cell.str "Unknown" := by
  unfold addDefault
  split
  · exact hall
  · intro r hr
    obtain ⟨a, ha, rfl⟩ := List.mem_map.mp hr
    rw [getCell_setKey_ne _ _ _ _ hne]
    exact hall a ha

theorem addDefault_mem_unknown_start (t : List Record) (c : String)
    (h : hasCol t c = false) :
    ∀ r ∈ addDefault t c, getCell r c = Cell.str "Unknown" := by
  unfold addDefault
  split
  · rename_i hcol
    rw [h] at hcol
    exact absurd hcol (by decide)
  · intro r hr
    obtain ⟨a, ha, rfl⟩ := List.mem_map.mp hr
    exact getCell_setKey_same _ _ _

theorem withDefaults_unknown (t : List Record) (c : String) (hc : c ∈ catColumns)
    (h : hasCol t c = false) :
    ∀ r ∈ withDefaults t, getCell r c = Cell.str "Unknown" := by
  fin_cases hc
  · exact addDefault_mem_unknown_keep _ _ _ (by decide)
      (addDefault_mem_unknown_keep _ _ _ (by decide)
        (addDefault_mem_unknown_keep _ _ _ (by decide)
          (addDefault_mem_unknown_start _ _ h)))
  · exact addDefault_mem_unknown_keep _ _ _ (by decide)
      (addDefault_mem_unknown_keep _ _ _ (by decide)
        (addDefault_mem_unknown_start _ _
          (by rw [hasCol_addDefault _ _ _ (by decide)]; exact h)))
  · exact addDefault_mem_unknown_keep _ _ _ (by decide)
      (addDefault_mem_unknown_start _ _
        (by rw [hasCol_addDefault _ _ _ (by decide),
                hasCol_addDefault _ _ _ (by decide)]; exact h))
  · exact addDefault_mem_unknown_start _ _
      (by rw [hasCol_addDefault _ _ _ (by decide), hasCol_addDefault _ _ _ (by decide),
              hasCol_addDefault _ _ _ (by decide)]; exact h)

theorem withDefaults_preserved (t : List Record) (c : String) (hc : c ∈ catColumns)
    (h : hasCol t c = true) (i : Nat) (hi : i < t.length) :
    getCell ((withDefaults t).getD i []) c = getCell (t.getD i []) c := by
  fin_cases hc <;> unfold withDefaults
  · rw [addDefault_of_hasCol _ _ h,
        getD_addDefault_ne _ _ _ (by decide) i
          (by rw [length_addDefault, length_addDefault]; exact hi),
        getD_addDefault_ne _ _ _ (by decide) i (by rw [length_addDefault]; exact hi),
        getD_addDefault_ne _ _ _ (by decide) i hi]
  · rw [addDefault_of_hasCol (addDefault t "category") _
          (by rw [hasCol_addDefault _ _ _ (by decide)]; exact h),
        getD_addDefault_ne _ _ _ (by decide) i
          (by rw [length_addDefault, length_addDefault]; exact hi),
        getD_addDefault_ne _ _ _ (by decide) i (by rw [length_addDefault]; exact hi),
        getD_addDefault_ne _ _ _ (by decide) i hi]
  · rw [addDefault_of_hasCol (addDefault (addDefault t "category") "collection") _
          (by rw [hasCol_addDefault _ _ _ (by decide),
                  hasCol_addDefault _ _ _ (by decide)]; exact h),
        getD_addDefault_ne _ _ _ (by decide) i
          (by rw [length_addDefault, length_addDefault]; exact hi),
        getD_addDefault_ne _ _ _ (by decide) i (by rw [length_addDefault]; exact hi),
        getD_addDefault_ne _ _ _ (by decide) i hi]
  · rw [addDefault_of_hasCol
          (addDefault (addDefault (addDefault t "category") "collection") "gender") _
          (by rw [hasCol_addDefault _ _ _ (by decide), hasCol_addDefault _ _ _ (by decide),
                  hasCol_addDefault _ _ _ (by decide)]; exact h),
        getD_addDefault_ne _ _ _ (by decide) i
          (by rw [length_addDefault, length_addDefault]; exact hi),
        getD_addDefault_ne _ _ _ (by decide) i (by rw [length_addDefault]; exact hi),
        getD_addDefault_ne _ _ _ (by decide) i hi]

/-- C2 counterexample: an item whose raw count is the integer -5 is stored
with count -5, a negative integer, so the stored count is not always
non-negative. -/
theorem count_nonneg_counterexample :
    (process_store_data [("Store A", [[("count", Cell.int (-5))]])]).map
        (fun rows => rows.map (fun r => getCell r "count")) = some [Cell.int (-5)] ∧
    ¬ (0 : Int) ≤ -5 :=
  ⟨by decide, by decide⟩

/-- C2 amended: every stored count is the integer coercion of the raw count
cell of the same row; a missing or unparsable raw count coerces to 0; and
the stored value is non-negative whenever the raw numeric value is
non-negative (a negative raw count is stored negative). -/
theorem count_coercion_values (payload : InvPayload) (rows : List Record)
    (hp : process_store_data payload = some rows) :
    (∀ i : Nat, i < rows.length →
      getCell (rows.getD i []) "count" =
        Cell.int (coerceCount (getCell ((allItems payload).getD i []) "count"))) ∧
    (∀ v : Cell, toNumeric v = none → coerceCount v = 0) ∧
    (∀ v : Cell, ∀ q : ℚ, toNumeric v = some q → 0 ≤ q → 0 ≤ coerceCount v) := by
  obtain ⟨hcnt, hrows⟩ := process_store_data_eq_some payload rows hp
  refine ⟨?_, ?_, ?_⟩
  · intro i hi
    rw [hrows] at hi
    have hlen : i < (withDefaults (allItems payload)).length := by simpa using hi
    have hlen0 : i < (allItems payload).length := by
      rw [length_withDefaults] at hlen
      exact hlen
    rw [hrows, getD_map_record _ _ i hlen, getCell_setKey_same,
        getD_withDefaults_count _ i hlen0]
  · intro v hv
    simp only [coerceCount, hv, Option.getD_none]
    decide
  · intro v q hv hq
    simp only [coerceCount, hv, Option.getD_some, truncToInt]
    rw [if_pos hq]
    exact Rat.le_floor.mpr (by exact_mod_cast hq)

/-- Witness for C2 amended: the theorem applied at a one-item payload, with
the missing-count conclusion instantiated at the null cell. -/
theorem count_coercion_values_witness :
    coerceCount Cell.null = 0 :=
  (count_coercion_values [("A", [[("count", Cell.int 5)]])]
      [[("count", Cell.int 5), ("size", Cell.str "Unknown"), ("gender", Cell.str "Unknown"),
        ("collection", Cell.str "Unknown"), ("category", Cell.str "Unknown"),
        ("store_name", Cell.str "A"), ("count", Cell.int 5)]]
      (by decide)).2.1 Cell.null rfl

/-- C3: for each categorical column, absence from every record back-fills
the whole column with "Unknown", while presence in at least one record
leaves each row's value untouched, so a row lacking the field keeps null. -/
theorem categorical_column_defaults (payload : InvPayload) (rows : List Record)
    (c : String) (hc : c ∈ catColumns) (hp : process_store_data payload = some rows) :
    (hasCol (allItems payload) c = false →
      ∀ r ∈ rows, getCell r c = Cell.str "Unknown") ∧
    (hasCol (allItems payload) c = true →
      rows.length = (allItems payload).length ∧
      ∀ i : Nat, i < rows.length →
        getCell (rows.getD i []) c = getCell ((allItems payload).getD i []) c ∧
        (hasKey ((allItems payload).getD i []) c = false →
          getCell (rows.getD i []) c = Cell.null)) := by
  obtain ⟨hcnt, hrows⟩ := process_store_data_eq_some payload rows hp
  have hnc : c ≠ "count" := by fin_cases hc <;> decide
  have hlen : rows.length = (allItems payload).length := by
    rw [hrows, List.length_map, length_withDefaults]
  constructor
  · intro h r hr
    rw [hrows] at hr
    obtain ⟨a, ha, rfl⟩ := List.mem_map.mp hr
    rw [getCell_setKey_ne _ _ _ _ hnc]
    exact withDefaults_unknown _ c hc h a ha
  · intro h
    refine ⟨hlen, ?_⟩
    intro i hi
    have hi0 : i < (allItems payload).length := hlen ▸ hi
    have hgd : getCell (rows.getD i []) c = getCell ((allItems payload).getD i []) c := by
      rw [hrows, getD_map_record _ _ i (by rw [length_withDefaults]; exact hi0),
          getCell_setKey_ne _ _ _ _ hnc, withDefaults_preserved _ c hc h i hi0]
    exact ⟨hgd, fun hk => by rw [hgd]; exact getCell_eq_null_of_not_hasKey _ _ hk⟩

/-- Witness for C3: a payload where category appears in one of two records;
the row lacking it keeps null after normalization. -/
theorem categorical_column_defaults_witness :
    getCell (([[("count", Cell.int 1), ("size", Cell.str "Unknown"),
        ("gender", Cell.str "Unknown"), ("collection", Cell.str "Unknown"),
        ("store_name", Cell.str "S"), ("count", Cell.int 1)],
      [("count", Cell.int 2), ("size", Cell.str "Unknown"),
        ("gender", Cell.str "Unknown"), ("collection", Cell.str "Unknown"),
        ("store_name", Cell.str "S"), ("count", Cell.int 2),
        ("category", Cell.str "Tops")]] : List Record).getD 0 []) "category"
      = Cell.null :=
  (((categorical_column_defaults
      [("S", [[("count", Cell.int 1)], [("count", Cell.int 2), ("category", Cell.str "Tops")]])]
      [[("count", Cell.int 1), ("size", Cell.str "Unknown"),
        ("gender", Cell.str "Unknown"), ("collection", Cell.str "Unknown"),
        ("store_name", Cell.str "S"), ("count", Cell.int 1)],
       [("count", Cell.int 2), ("size", Cell.str "Unknown"),
        ("gender", Cell.str "Unknown"), ("collection", Cell.str "Unknown"),
        ("store_name", Cell.str "S"), ("count", Cell.int 2),
        ("category", Cell.str "Tops")]]
      "category" (by decide) (by decide)).2 (by decide)).2 0 (by decide)).2 (by decide)

/-- C8 counterexample: a payload in which no record carries a count field
makes `process_store_data` fail (reading the absent count column raises
KeyError), instead of returning a table. -/
theorem process_missing_count_counterexample :
    process_store_data [("Store A", [[("size", Cell.str "M")]])] = none := by
  decide

/-- C8 amended: whenever at least one record of the payload carries a count
field, `process_store_data` succeeds and every output row stores an integer
count (coercion itself never fails); when no record carries a count field,
the pipeline fails with a KeyError instead of returning a table. -/
theorem process_store_data_count_total (payload : InvPayload) :
    (hasCol (allItems payload) "count" = true →
      ∃ rows, process_store_data payload = some rows ∧
        ∀ r ∈ rows, ∃ n : Int, getCell r "count" = Cell.int n) ∧
    (hasCol (allItems payload) "count" = false →
      process_store_data payload = none) := by
  have hpres := hasCol_withDefaults_count (allItems payload)
  constructor
  · intro h
    refine ⟨(withDefaults (allItems payload)).map
        (fun r => setKey r "count" (.int (coerceCount (getCell r "count")))), ?_, ?_⟩
    · unfold process_store_data coerceCountCol
      rw [if_pos (hpres.trans h)]
    · intro r hr
      obtain ⟨a, _, rfl⟩ := List.mem_map.mp hr
      exact ⟨_, getCell_setKey_same _ _ _⟩
  · intro h
    unfold process_store_data coerceCountCol
    rw [if_neg (by rw [hpres, h]; decide)]

/-- Witness for C8 amended: the success branch at a one-item payload. -/
theorem process_store_data_count_total_witness :
    ∃ rows, process_store_data [("A", [[("count", Cell.int 5)]])] = some rows ∧
      ∀ r ∈ rows, ∃ n : Int, getCell r "count" = Cell.int n :=
  (process_store_data_count_total [("A", [[("count", Cell.int 5)]])]).1 (by decide)

/-! ## Groupby aggregation of the count column (src/main.py lines 171-172
and the other groupby(...)["count"].sum() calls)

Pandas groupby with its default settings drops rows whose grouping key is
NaN: no group is formed for the null key. The per-group reducer sums the
integer count column. -/

/-- The integer count of a normalized row (rows produced by
`process_store_data` always carry an integer count). -/
def countVal (r : Record) : Int :=
  match getCell r "count" with
  | .int n => n
  | _ => 0

/-- Sum of the count column over a table. -/
def totalCount (t : List Record) : Int :=
  (t.map countVal).sum

/-- The group keys formed by groupby on column c: the distinct non-null
values of the column (pandas drops NaN keys). -/
def groupKeys (t : List Record) (c : String) : List Cell :=
  ((t.map (fun r => getCell r c)).filter (fun v => v ≠ Cell.null)).dedup

/-- The count sum of the group with key k. -/
def groupSum (t : List Record) (c : String) (k : Cell) : Int :=
  totalCount (t.filter (fun r => getCell r c = k))

/-- The sum over all groups of the per-group count sums. -/
def groupedTotal (t : List Record) (c : String) : Int :=
  ((groupKeys t c).map (groupSum t c)).sum

theorem totalCount_filter_split (t : List Record) (p : Record → Bool) :
    totalCount (t.filter p) + totalCount (t.filter (fun r => !p r)) = totalCount t := by
  induction t with
  | nil => rfl
  | cons r t ih =>
    cases hp : p r <;> simp [totalCount, List.filter_cons, hp] at ih ⊢ <;> omega

theorem groupSum_filter_ne (t : List Record) (c : String) (k k' : Cell)
    (hne : k' ≠ k) :
    groupSum (t.filter (fun r => !(getCell r c = k))) c k' = groupSum t c k' := by
  unfold groupSum
  congr 1
  rw [List.filter_filter]
  apply List.filter_congr
  intro r _
  by_cases h : getCell r c = k'
  · simp [h, hne]
  · simp [h]

theorem totalCount_partition (t : List Record) (c : String) (keys : List Cell)
    (hnd : keys.Nodup) (hcov : ∀ r ∈ t, getCell r c ∈ keys) :
    (keys.map (groupSum t c)).sum = totalCount t := by
  induction keys generalizing t with
  | nil =>
    cases t with
    | nil => rfl
    | cons r t => exact absurd (hcov r (by simp)) (by simp)
  | cons k ks ih =>
    rw [List.map_cons, List.sum_cons]
    have hsplit := totalCount_filter_split t (fun r => getCell r c = k)
    have htail : (ks.map (groupSum t c)).sum =
        (ks.map (groupSum (t.filter (fun r => !(getCell r c = k))) c)).sum := by
      congr 1
      apply List.map_congr_left
      intro k' hk'
      exact (groupSum_filter_ne t c k k'
        (fun he => (List.nodup_cons.mp hnd).1 (he ▸ hk'))).symm
    have hcov' : ∀ r ∈ t.filter (fun r => !(getCell r c = k)), getCell r c ∈ ks := by
      intro r hr
      obtain ⟨hrt, hne⟩ := List.mem_filter.mp hr
      have hne' : getCell r c ≠ k := by simpa using hne
      rcases List.mem_cons.mp (hcov r hrt) with he | hm
      · exact absurd he hne'
      · exact hm
    rw [htail, ih _ (List.nodup_cons.mp hnd).2 hcov']
    have hdef : groupSum t c k = totalCount (t.filter (fun r => getCell r c = k)) := rfl
    omega

/-- C7 counterexample: a normalized table in which one row's category is
null (the field was present in some record but not this one). Pandas drops
the null-keyed row from every group, so the per-group sums add to 3 while
the table total is 8. -/
theorem groupby_null_keys_counterexample :
    (process_store_data
        [("S", [[("count", Cell.int 5)],
                [("count", Cell.int 3), ("category", Cell.str "A")]])]).map
        (fun rows => (totalCount rows, groupedTotal rows "category"))
      = some (8, 3) ∧ (8 : Int) ≠ 3 :=
  ⟨by decide, by decide⟩

/-- C7 amended: aggregation conserves totals for every grouping column that
is null in no row; when the grouping column contains nulls, groupby drops
those rows and the per-group sums undercount the table total. -/
theorem groupby_conserves_totals (t : List Record) (c : String)
    (h : ∀ r ∈ t, getCell r c ≠ Cell.null) :
    groupedTotal t c = totalCount t := by
  unfold groupedTotal
  apply totalCount_partition
  · exact List.nodup_dedup _
  · intro r hr
    rw [groupKeys, List.mem_dedup, List.mem_filter]
    exact ⟨List.mem_map.mpr ⟨r, hr, rfl⟩, by simpa using h r hr⟩

/-- Witness for C7 amended: conservation on a concrete two-row table grouped
by store name. -/
theorem groupby_conserves_totals_witness :
    groupedTotal [[("count", Cell.int 2), ("store_name", Cell.str "X")],
                  [("count", Cell.int 3), ("store_name", Cell.str "Y")]] "store_name"
      = totalCount [[("count", Cell.int 2), ("store_name", Cell.str "X")],
                    [("count", Cell.int 3), ("store_name", Cell.str "Y")]] :=
  groupby_conserves_totals _ _ (by decide)

/-! ## `fetch_store_data` (src/main.py lines 48-70)

The effectful boundary is embedded as a function of the outcome of the HTTP
round trip: the request may raise (network error or non-2xx status via
raise_for_status), the body may fail to parse as JSON, the envelope may lack
the expected keys (KeyError), or an envelope with a status string and a data
field is obtained. The second parse pass applied when data is a JSON-encoded
string is an explicit parameter, `none` modelling json.JSONDecodeError. -/

/-- The data field of the envelope: structured records, or a JSON-encoded
string that still needs a second parse. -/
inductive DataField where
  | structured (d : InvPayload)
  | encoded (s : String)

/-- Outcome of the HTTP round trip and envelope decoding. -/
inductive FetchOutcome where
  | netError (msg : String)
  | badBody (msg : String)
  | badEnvelope (msg : String)
  | envelope (status : String) (data : DataField)

/-- The body of the try block of `fetch_store_data`: an error value models
an exception travelling to the enclosing handler. -/
def fetch_attempt (parse : String → Option InvPayload) :
    FetchOutcome → Except String InvPayload
  | .netError m => .error m
  | .badBody m => .error m
  | .badEnvelope m => .error m
  | .envelope st d =>
    if st = "success" then
      match d with
      | .structured p => .ok p
      | .encoded s =>
        match parse s with
        | some p => .ok p
        | none => .ok []
    else .ok []

/-- Embedding of `fetch_store_data`: the except-all handler reports the
error and returns the empty mapping. -/
def fetch_store_data (parse : String → Option InvPayload) (o : FetchOutcome) :
    InvPayload :=
  match fetch_attempt parse o with
  | .ok p => p
  | .error _ => []

/-- C4: the inventory fetcher fails closed. On a network error, a non-2xx
status, a malformed JSON body, a malformed envelope, an envelope whose
status is not "success", or a failed second parse of a string-encoded data
field, it returns the empty mapping (and, being a total function of the
outcome, never raises past its boundary); on success with structured data
it returns the data field unchanged, and a successful second parse returns
the parsed payload. -/
theorem fetch_store_data_fails_closed (parse : String → Option InvPayload)
    (o : FetchOutcome) :
    (∀ m, o = .netError m → fetch_store_data parse o = []) ∧
    (∀ m, o = .badBody m → fetch_store_data parse o = []) ∧
    (∀ m, o = .badEnvelope m → fetch_store_data parse o = []) ∧
    (∀ st d, o = .envelope st d → st ≠ "success" → fetch_store_data parse o = []) ∧
    (∀ d, o = .envelope "success" (.structured d) → fetch_store_data parse o = d) ∧
    (∀ s, o = .envelope "success" (.encoded s) → parse s = none →
      fetch_store_data parse o = []) ∧
    (∀ s p, o = .envelope "success" (.encoded s) → parse s = some p →
      fetch_store_data parse o = p) := by
  refine ⟨?_, ?_, ?_, ?_, ?_, ?_, ?_⟩
  · rintro m rfl; rfl
  · rintro m rfl; rfl
  · rintro m rfl; rfl
  · rintro st d rfl hne
    simp [fetch_store_data, fetch_attempt, hne]
  · rintro d rfl; rfl
  · rintro s rfl hp
    simp [fetch_store_data, fetch_attempt, hp]
  · rintro s p rfl hp
    simp [fetch_store_data, fetch_attempt, hp]

/-- Witness for C4: a failed second parse at a concrete outcome returns the
empty mapping. -/
theorem fetch_store_data_fails_closed_witness :
    fetch_store_data (fun _ => none) (.envelope "success" (.encoded "[broken")) = [] :=
  (fetch_store_data_fails_closed (fun _ => none)
      (.envelope "success" (.encoded "[broken"))).2.2.2.2.2.1 "[broken" rfl rfl

/-! ## `load_data` (src/sales-report.py lines 54-119)

In the sales pipeline the try block only assigns `json_data` when the GET
succeeds with status code 200; when the GET raises, the handler shows a
warning and falls through, and when the status code differs from 200 only a
warning is shown. Either way `json_data` is never assigned and the
DataFrame construction at line 70 raises NameError, which no handler
catches. The downstream table construction (date parsing, derived columns)
is abstracted as a `build` parameter since the failure paths never reach
it. -/

/-- One normalized sales row (the columns the dashboards read). -/
structure SalesRow where
  store_name : String
  item_name : ItemName
  year : Int
  month_name : String
  month_year : String
  product_category : String
  total_quantity : Int
  average_price : ℚ
  total_value : ℚ
deriving DecidableEq

/-- Outcome of the sales dashboard's HTTP GET. -/
inductive SalesOutcome where
  | raised (msg : String)
  | response (code : Nat) (body : List Record)

/-- A Python runtime error escaping `load_data`. -/
inductive PyRunError where
  | nameError (name : String)
deriving DecidableEq

/-- The value bound to `json_data` after the try block, if any: the GET
raising or returning a non-200 code leaves the name unassigned. -/
def salesFetch (o : SalesOutcome) : Option (List Record) :=
  match o with
  | .raised _ => none
  | .response code body => if code = 200 then some body else none

/-- Embedding of `load_data`: referencing the unassigned `json_data` at the
DataFrame construction raises NameError; otherwise the table is built from
the payload. -/
def load_data (build : List Record → List SalesRow) (o : SalesOutcome) :
    Except PyRunError (List SalesRow) :=
  match salesFetch o with
  | some jd => .ok (build jd)
  | none => .error (.nameError "json_data")

/-- C5: when the sales GET raises or returns a status other than 200, no
payload value is assigned (`salesFetch` is none), `load_data` raises
NameError rather than producing any table — in particular not an empty or
fallback one — so the fetch failure is fatal for the dashboard run. -/
theorem load_data_fetch_fatal (build : List Record → List SalesRow)
    (o : SalesOutcome) :
    (∀ m, o = .raised m →
      salesFetch o = none ∧
      load_data build o = .error (.nameError "json_data") ∧
      ∀ t : List SalesRow, load_data build o ≠ .ok t) ∧
    (∀ code body, o = .response code body → code ≠ 200 →
      salesFetch o = none ∧
      load_data build o = .error (.nameError "json_data") ∧
      ∀ t : List SalesRow, load_data build o ≠ .ok t) := by
  constructor
  · rintro m rfl
    exact ⟨rfl, rfl, fun t h => by cases h⟩
  · rintro code body rfl hne
    have hfetch : salesFetch (.response code body) = none := by
      simp [salesFetch, hne]
    refine ⟨hfetch, ?_, ?_⟩
    · simp [load_data, hfetch]
    · intro t h
      rw [load_data, hfetch] at h
      cases h

/-- Witness for C5: a concrete 500 response is fatal. -/
theorem load_data_fetch_fatal_witness :
    salesFetch (.response 500 []) = none ∧
    load_data (fun _ => []) (.response 500 []) = .error (.nameError "json_data") ∧
    ∀ t : List SalesRow, load_data (fun _ => []) (.response 500 []) ≠ .ok t :=
  (load_data_fetch_fatal (fun _ => []) (.response 500 [])).2 500 [] rfl (by decide)

/-! ## Month-over-month growth rates (src/sales-report.py lines 640-660)

The monthly totals are a pandas float column. The arithmetic of lines
643-644 is modelled by rationals extended with NaN and the signed
infinities, which is exact for the operations involved: `shift(1)` puts NaN
in the first row, `(cur - prev) / prev * 100` is evaluated in float
semantics (x/0 is NaN for x = 0 and a signed infinity otherwise), and
line 647's `dropna()` removes exactly the rows whose growth rate is NaN
(the first row, where previous is NaN, and any 0/0 row). -/

/-- A float value of the growth computation: exact rational, NaN, or a
signed infinity. -/
inductive Flt where
  | val (q : ℚ)
  | nan
  | inf
  | ninf
deriving DecidableEq

/-- Float subtraction on the extended values. -/
def fsub : Flt → Flt → Flt
  | .nan, _ => .nan
  | _, .nan => .nan
  | .val a, .val b => .val (a - b)
  | .val _, .inf => .ninf
  | .val _, .ninf => .inf
  | .inf, .val _ => .inf
  | .ninf, .val _ => .ninf
  | .inf, .inf => .nan
  | .inf, .ninf => .inf
  | .ninf, .inf => .ninf
  | .ninf, .ninf => .nan

/-- Float division: x/0 is NaN when x = 0 and a signed infinity otherwise. -/
def fdiv : Flt → Flt → Flt
  | .nan, _ => .nan
  | _, .nan => .nan
  | .val a, .val b =>
    if b = 0 then (if a = 0 then .nan else if 0 < a then .inf else .ninf)
    else .val (a / b)
  | .val _, .inf => .val 0
  | .val _, .ninf => .val 0
  | .inf, .val b => if 0 ≤ b then .inf else .ninf
  | .ninf, .val b => if 0 ≤ b then .ninf else .inf
  | .inf, .inf => .nan
  | .inf, .ninf => .nan
  | .ninf, .inf => .nan
  | .ninf, .ninf => .nan

/-- Float multiplication. -/
def fmul : Flt → Flt → Flt
  | .nan, _ => .nan
  | _, .nan => .nan
  | .val a, .val b => .val (a * b)
  | .val a, .inf => if a = 0 then .nan else if 0 < a then .inf else .ninf
  | .val a, .ninf => if a = 0 then .nan else if 0 < a then .ninf else .inf
  | .inf, .val b => if b = 0 then .nan else if 0 < b then .inf else .ninf
  | .ninf, .val b => if b = 0 then .nan else if 0 < b then .ninf else .inf
  | .inf, .inf => .inf
  | .inf, .ninf => .ninf
  | .ninf, .inf => .ninf
  | .ninf, .ninf => .inf

/-- The shifted previous_quantity column (`shift(1)`): NaN first, then the
totals with the last dropped. -/
def shiftOne (v : List ℚ) : List Flt :=
  Flt.nan :: v.dropLast.map Flt.val

/-- One growth cell: (current - previous) / previous * 100 in float
semantics (line 644). -/
def growthEntry (cur prev : Flt) : Flt :=
  fmul (fdiv (fsub cur prev) prev) (Flt.val 100)

/-- The growth_rate column over the month-ordered totals (line 644). -/
def growthCol (v : List ℚ) : List Flt :=
  List.zipWith growthEntry (v.map Flt.val) (shiftOne v)

/-- The charted growth series after line 647's dropna: NaN rows removed. -/
def growth_rates (v : List ℚ) : List Flt :=
  (growthCol v).filter (fun x => x ≠ Flt.nan)

/-- Spec-side pairing of consecutive totals: the growth entries of all rows
but the first. -/
def pairGrowth (v : List ℚ) : List Flt :=
  (v.zip v.tail).map (fun p => growthEntry (Flt.val p.2) (Flt.val p.1))

theorem zipWith_growth_aux (a : ℚ) (t : List ℚ) :
    List.zipWith growthEntry (t.map Flt.val) ((a :: t).dropLast.map Flt.val) =
      pairGrowth (a :: t) := by
  induction t generalizing a with
  | nil => rfl
  | cons b t' ih =>
    have hd : (a :: b :: t').dropLast = a :: (b :: t').dropLast := rfl
    rw [hd]
    simp only [List.map_cons, List.zipWith_cons_cons]
    rw [ih b]
    rfl

theorem growthCol_cons (a : ℚ) (t : List ℚ) :
    growthCol (a :: t) = Flt.nan :: pairGrowth (a :: t) := by
  unfold growthCol shiftOne
  simp only [List.map_cons, List.zipWith_cons_cons]
  rw [zipWith_growth_aux]
  rfl

theorem growthEntry_val (cur prev : ℚ) (h : prev ≠ 0) :
    growthEntry (Flt.val cur) (Flt.val prev) =
      Flt.val ((cur - prev) / prev * 100) := by
  simp [growthEntry, fsub, fdiv, fmul, h]

theorem getD_map_flt (f : ℚ × ℚ → Flt) (l : List (ℚ × ℚ)) (i : Nat)
    (h : i < l.length) : (l.map f).getD i Flt.nan = f (l.getD i (0, 0)) := by
  have h2 : i < (l.map f).length := by simpa using h
  rw [List.getD_eq_getElem _ _ h2, List.getD_eq_getElem _ _ h, List.getElem_map]

theorem getD_zipq (l l2 : List ℚ) (i : Nat) (h : i < (l.zip l2).length) :
    (l.zip l2).getD i (0, 0) = (l.getD i 0, l2.getD i 0) := by
  have h1 : i < l.length := by rw [List.length_zip] at h; omega
  have h2 : i < l2.length := by rw [List.length_zip] at h; omega
  rw [List.getD_eq_getElem _ _ h, List.getD_eq_getElem _ _ h1,
      List.getD_eq_getElem _ _ h2, List.getElem_zip]

theorem getD_tail_q (v : List ℚ) (i : Nat) :
    v.tail.getD i 0 = v.getD (i + 1) 0 := by
  cases v <;> rfl

theorem pairGrowth_all_val (v : List ℚ)
    (hnz : ∀ i : Nat, i + 1 < v.length → v.getD i 0 ≠ 0) :
    ∀ x ∈ pairGrowth v, x ≠ Flt.nan := by
  intro x hx
  obtain ⟨p, hp, rfl⟩ := List.mem_map.mp hx
  obtain ⟨i, hi, hpi⟩ := List.mem_iff_getElem.mp hp
  have hi1 : i + 1 < v.length := by
    rw [List.length_zip, List.length_tail] at hi
    omega
  have hp1 : p = (v.getD i 0, v.tail.getD i 0) := by
    rw [← getD_zipq v v.tail i hi, List.getD_eq_getElem _ _ hi, hpi]
  rw [hp1, growthEntry_val _ _ (hnz i hi1)]
  intro hcon
  cases hcon

theorem growth_rates_eq_pairGrowth (a : ℚ) (t : List ℚ)
    (hnz : ∀ i : Nat, i + 1 < (a :: t).length → (a :: t).getD i 0 ≠ 0) :
    growth_rates (a :: t) = pairGrowth (a :: t) := by
  have hall := pairGrowth_all_val (a :: t) hnz
  unfold growth_rates
  rw [growthCol_cons, List.filter_cons_of_neg (by decide)]
  exact List.filter_eq_self.mpr (fun x hx => by simpa using hall x hx)

/-- C6 counterexample: for the monthly totals [0, 0] (length 2) the single
0/0 growth entry is NaN and dropna removes it, so the charted series is
empty rather than having 2 - 1 = 1 entries. -/
theorem growth_rates_length_counterexample :
    (growth_rates [0, 0]).length = 0 ∧ [(0 : ℚ), 0].length - 1 = 1 := by
  refine ⟨?_, rfl⟩
  norm_num [growth_rates, growthCol, shiftOne, growthEntry, fsub, fdiv, fmul,
    List.zipWith, List.filter]

/-- C6 amended: for monthly totals of length n at least 2 in which every
total with a successor is nonzero, the growth series has exactly n - 1
entries, entry i is (value[i+1] - value[i]) / value[i] * 100, and the first
input contributes no entry; [10, 15, 12] yields [50, -20]. (When some
value[i] is 0 with value[i+1] = 0 the 0/0 entry is NaN and is dropped, so
the series is shorter.) -/
theorem growth_rate_series (v : List ℚ) (h2 : 2 ≤ v.length)
    (hnz : ∀ i : Nat, i + 1 < v.length → v.getD i 0 ≠ 0) :
    (growth_rates v).length = v.length - 1 ∧
    (∀ i : Nat, i + 1 < v.length →
      (growth_rates v).getD i Flt.nan =
        Flt.val ((v.getD (i + 1) 0 - v.getD i 0) / v.getD i 0 * 100)) ∧
    growth_rates [10, 15, 12] = [Flt.val 50, Flt.val (-20)] := by
  obtain ⟨a, t, rfl⟩ : ∃ a t, v = a :: t := by
    cases v with
    | nil => simp at h2
    | cons a t => exact ⟨a, t, rfl⟩
  have hgr := growth_rates_eq_pairGrowth a t hnz
  refine ⟨?_, ?_, ?_⟩
  · rw [hgr]
    unfold pairGrowth
    rw [List.length_map, List.length_zip, List.length_tail]
    simp only [List.length_cons]
    omega
  · intro i hi1
    have hzlen : i < ((a :: t).zip (a :: t).tail).length := by
      rw [List.length_zip, List.length_tail]
      simp only [List.length_cons] at hi1 ⊢
      omega
    rw [hgr]
    simp only [pairGrowth, getD_map_flt _ _ i hzlen, getD_zipq _ _ i hzlen,
      getD_tail_q]
    rw [growthEntry_val _ _ (hnz i hi1)]
  · norm_num [growth_rates, growthCol, shiftOne, growthEntry, fsub, fdiv, fmul,
      List.zipWith, List.filter]
    rfl

/-- Witness for C6 amended: the length conclusion at the spec's example
series. -/
theorem growth_rate_series_witness :
    (growth_rates [10, 15, 12]).length = [(10 : ℚ), 15, 12].length - 1 :=
  (growth_rate_series [10, 15, 12] (by norm_num)
    (by
      intro i hi
      have h01 : i = 0 ∨ i = 1 := by simp at hi; omega
      rcases h01 with rfl | rfl <;>
        norm_num [List.getD_cons_zero, List.getD_cons_succ])).1

/-! ## Facet selectors and the filter stage

src/sales-report.py lines 144-192 and src/main.py lines 113-137. Python's
`sorted` is modelled by a stable insertion sort; the boolean relation is a
parameter so that the descending year sort (reverse=True) and the ascending
string sorts share it. -/

/-- Insert into a sorted list (stable). -/
def insertBy {α : Type} (le : α → α → Bool) (x : α) : List α → List α
  | [] => [x]
  | b :: bs => if le x b then x :: b :: bs else b :: insertBy le x bs

/-- Model of Python sorted with the given boolean order. -/
def sortBy {α : Type} (le : α → α → Bool) : List α → List α
  | [] => []
  | a :: as => insertBy le a (sortBy le as)

/-- The year selector options (src/sales-report.py lines 144-149): the
distinct years present in the data, sorted descending. The options are
integers; no wildcard entry is offered. -/
def yearOptions (df : List SalesRow) : List Int :=
  sortBy (fun a b => decide (b ≤ a)) (df.map SalesRow.year).dedup

/-- The month selector options (line 152), wildcard first. -/
def monthOptions : List String :=
  ["All Months", "Jan", "Feb", "Mar", "Apr", "May", "Jun", "Jul", "Aug",
   "Sep", "Oct", "Nov", "Dec"]

/-- The store selector options (lines 160-166), wildcard first. -/
def storeOptions (df : List SalesRow) : List String :=
  "All Stores" :: sortBy (fun a b => decide (a ≤ b)) (df.map SalesRow.store_name).dedup

/-- The product-category selector options (lines 169-174), wildcard first. -/
def salesCategoryOptions (df : List SalesRow) : List String :=
  "All Categories" :: sortBy (fun a b => decide (a ≤ b)) (df.map SalesRow.product_category).dedup

/-- The sales dashboard filter stage (lines 177-192): the year equality
filter is applied unconditionally; the month, store and category filters
are skipped on their wildcard values. -/
def applySalesFilters (df : List SalesRow) (selYear : Int)
    (selMonth selStore selCategory : String) : List SalesRow :=
  let d1 := df.filter (fun r => r.year = selYear)
  let d2 := if selMonth ≠ "All Months"
    then d1.filter (fun r => r.month_name = selMonth) else d1
  let d3 := if selStore ≠ "All Stores"
    then d2.filter (fun r => r.store_name = selStore) else d2
  if selCategory ≠ "All Categories"
    then d3.filter (fun r => r.product_category = selCategory) else d3

/-- The inventory dashboard filter stage (src/main.py lines 129-137): each
of the four filters is skipped on its wildcard value. -/
def applyInvFilters (df : List Record) (selStore selCat selColl selGen : String) :
    List Record :=
  let d1 := if selStore ≠ "All Stores"
    then df.filter (fun r => getCell r "store_name" = .str selStore) else df
  let d2 := if selCat ≠ "All Categories"
    then d1.filter (fun r => getCell r "category" = .str selCat) else d1
  let d3 := if selColl ≠ "All Collections"
    then d2.filter (fun r => getCell r "collection" = .str selColl) else d2
  if selGen ≠ "All Genders"
    then d3.filter (fun r => getCell r "gender" = .str selGen) else d3

theorem mem_insertBy {α : Type} (le : α → α → Bool) (x a : α) (l : List α) :
    a ∈ insertBy le x l ↔ a = x ∨ a ∈ l := by
  induction l with
  | nil => simp [insertBy]
  | cons b bs ih =>
    simp only [insertBy]
    split
    · simp [List.mem_cons]
    · simp only [List.mem_cons, ih]
      tauto

theorem mem_sortBy {α : Type} (le : α → α → Bool) (a : α) (l : List α) :
    a ∈ sortBy le l ↔ a ∈ l := by
  induction l with
  | nil => simp [sortBy]
  | cons b bs ih => simp [sortBy, mem_insertBy, ih]

/-- C9 counterexample: on a table holding years 2024 and 2025, the year
selector offers exactly the integers [2025, 2024] — no "All" wildcard entry
exists — and under every offered option the unconditional year equality
filter strictly constrains the table even with all other facets on their
wildcards. -/
theorem year_facet_no_wildcard_counterexample :
    yearOptions
      [⟨"S", .pyStr "Item", 2024, "Jan", "Jan 2024", "Other", 1, 0, 0⟩,
       ⟨"S", .pyStr "Item", 2025, "Feb", "Feb 2025", "Other", 2, 0, 0⟩] = [2025, 2024] ∧
    (yearOptions
      [⟨"S", .pyStr "Item", 2024, "Jan", "Jan 2024", "Other", 1, 0, 0⟩,
       ⟨"S", .pyStr "Item", 2025, "Feb", "Feb 2025", "Other", 2, 0, 0⟩]).all
      (fun y =>
        decide (applySalesFilters
          [⟨"S", .pyStr "Item", 2024, "Jan", "Jan 2024", "Other", 1, 0, 0⟩,
           ⟨"S", .pyStr "Item", 2025, "Feb", "Feb 2025", "Other", 2, 0, 0⟩]
          y "All Months" "All Stores" "All Categories" ≠
          [⟨"S", .pyStr "Item", 2024, "Jan", "Jan 2024", "Other", 1, 0, 0⟩,
           ⟨"S", .pyStr "Item", 2025, "Feb", "Feb 2025", "Other", 2, 0, 0⟩])) = true :=
  ⟨by decide, by decide⟩

/-- C9 amended: the store, category, collection, gender and month selectors
each offer an "All" wildcard, and selecting every wildcard leaves the table
unconstrained by those facets; the sales year facet has no wildcard state:
its options are exactly years occurring in the data and the year equality
filter is always applied. -/
theorem facet_wildcards (inv : List Record) (df : List SalesRow) (y : Int) :
    applyInvFilters inv "All Stores" "All Categories" "All Collections" "All Genders" = inv ∧
    applySalesFilters df y "All Months" "All Stores" "All Categories" =
      df.filter (fun r => r.year = y) ∧
    monthOptions.getD 0 "" = "All Months" ∧
    (storeOptions df).getD 0 "" = "All Stores" ∧
    (salesCategoryOptions df).getD 0 "" = "All Categories" ∧
    (∀ o ∈ yearOptions df, o ∈ df.map SalesRow.year) := by
  refine ⟨?_, ?_, rfl, rfl, rfl, ?_⟩
  · simp [applyInvFilters]
  · simp [applySalesFilters]
  · intro o ho
    rw [yearOptions, mem_sortBy] at ho
    exact List.mem_dedup.mp ho

/-- Witness for C9 amended: all wildcard facets leave a concrete one-row
inventory table unchanged, and the year options of a concrete sales table
are years of the table. -/
theorem facet_wildcards_witness :
    applyInvFilters [[("store_name", Cell.str "X")]] "All Stores" "All Categories"
        "All Collections" "All Genders" = [[("store_name", Cell.str "X")]] ∧
    (2024 : Int) ∈ [⟨"S", .pyStr "Item", 2024, "Jan", "Jan 2024", "Other", 1, 0, 0⟩].map
        SalesRow.year :=
  ⟨(facet_wildcards [[("store_name", Cell.str "X")]] [] 0).1,
   (facet_wildcards [[("store_name", Cell.str "X")]]
      [⟨"S", .pyStr "Item", 2024, "Jan", "Jan 2024", "Other", 1, 0, 0⟩] 0).2.2.2.2.2
      2024 (by decide)⟩
